import Mathlib

/-!
Verification of the eclaim-downloader-core download engine.

This file gives a shallow embedding, translated from the Python source under
src/eclaim_core, of the parts of the system the specification claims talk
about: the typed data model (types.py), the JSON history store with its
atomic-write discipline (history/manager.py), the login heuristic, the
file-type classifier and the retry-bearing transfer loop of the REP
downloader (downloaders/rep.py), and the statement-list parser and transfer
loop of the STM downloader (downloaders/stm.py).  Network and disk effects
are made explicit: every fetch attempt is an input (an attempt-indexed
oracle), and the history files live in an explicit path-to-content map.
-/

namespace Eclaim

/-! ### String helpers mirroring the Python string operations used by the source -/

/-- Python str.lower; ASCII case folding (every marker the source compares is ASCII). -/
def lowerStr (s : String) : String := String.mk (s.data.map Char.toLower)

/-- Python str.upper; ASCII case folding. -/
def upperStr (s : String) : String := String.mk (s.data.map Char.toUpper)

/-- Occurrence of a character list as a contiguous sublist. -/
def listContainsSub (needle : List Char) : List Char → Bool
  | [] => needle.isEmpty
  | c :: rest => needle.isPrefixOf (c :: rest) || listContainsSub needle rest

/-- Python membership test for strings: needle in hay. -/
def strContains (hay needle : String) : Bool := listContainsSub needle.data hay.data

/-! ### Data model (src/eclaim_core/types.py) -/

/-- DownloadType enum: rep, stm, smt. -/
inductive DownloadType
  | REP
  | STM
  | SMT
deriving DecidableEq

/-- FileType enum. -/
inductive FileType
  | OP
  | IP
  | ORF
  | IP_APPEAL
  | IP_APPEAL_NHSO
  | STM_IP
  | STM_OP
deriving DecidableEq

/-- Scheme enum: the 8 insurance scheme codes. -/
inductive Scheme
  | UCS
  | OFC
  | SSS
  | LGO
  | NHS
  | BKK
  | BMT
  | SRT
deriving DecidableEq

/-- The .value string of a FileType member. -/
def fileTypeValue : FileType → String
  | .OP => "OP"
  | .IP => "IP"
  | .ORF => "ORF"
  | .IP_APPEAL => "IP_APPEAL"
  | .IP_APPEAL_NHSO => "IP_APPEAL_NHSO"
  | .STM_IP => "STM_IP"
  | .STM_OP => "STM_OP"

/-- The .value string of a Scheme member. -/
def schemeValue : Scheme → String
  | .UCS => "ucs"
  | .OFC => "ofc"
  | .SSS => "sss"
  | .LGO => "lgo"
  | .NHS => "nhs"
  | .BKK => "bkk"
  | .BMT => "bmt"
  | .SRT => "srt"

/-- The 7 positional string arguments of the downloadBill onclick action,
stored by STMDownloader in link metadata under download_params. -/
structure DownloadParams where
  document_no : String
  person_type : String
  hcode : String
  hname : String
  province_name : String
  datesend_from : String
  datesend_to : String
deriving DecidableEq

/-- The open metadata dict carried on links and results.  The source only ever
stores the four keys written by STMDownloader, so the dict is modelled as a
record; an absent or empty download_params dict is modelled by none. -/
structure StmMetadata where
  download_params : Option DownloadParams := none
  stmt_no : String := ""
  service_month : String := ""
  stmt_type : String := ""
deriving DecidableEq

/-- DownloadLink dataclass. -/
structure DownloadLink where
  url : String
  filename : String
  file_type : Option FileType := none
  scheme : Option Scheme := none
  metadata : StmMetadata := {}
deriving DecidableEq

/-- DownloadResult dataclass.  download_date is an opaque timestamp string
(the source fills it with datetime.now at construction time). -/
structure DownloadResult where
  success : Bool
  filename : String
  file_path : String
  file_size : Nat
  download_type : DownloadType
  file_type : Option FileType := none
  scheme : Option Scheme := none
  month : Option Nat := none
  year : Option Nat := none
  error : Option String := none
  url : Option String := none
  download_date : String := ""
  metadata : StmMetadata := {}
deriving DecidableEq

/-! ### History store (src/eclaim_core/history/manager.py)

Files are modelled by an explicit path-to-content map.  A file either holds a
well-formed history document (valid JSON of the expected shape) or is
unreadable/corrupt (invalid JSON or an IO failure on read); the save step that
can raise (json.dump to the temp file) takes an explicit success flag. -/

/-- The persisted record of one successful download (the dict built by add_record). -/
structure HistoryRecord where
  filename : String
  file_path : String
  file_size : Nat
  file_type : Option String
  scheme : Option String
  month : Option Nat
  year : Option Nat
  download_date : String
  url : Option String
  metadata : StmMetadata
deriving DecidableEq

/-- One history document: last_run plus the list of download records. -/
structure HistoryDoc where
  last_run : Option String
  downloads : List HistoryRecord
deriving DecidableEq

/-- The empty document returned when a history file is missing or unreadable. -/
def emptyHistory : HistoryDoc := ⟨none, []⟩

/-- Content of one file on disk: either a parseable history document, or bytes
that fail to parse as JSON / cannot be read. -/
inductive Content
  | doc (d : HistoryDoc)
  | corrupt
deriving DecidableEq

/-- A file system fragment: association list from path to file content. -/
abbrev FS := List (String × Content)

/-- Content at a path, none when no such file exists. -/
def FS.get : FS → String → Option Content
  | [], _ => none
  | e :: rest, p => if e.1 = p then some e.2 else FS.get rest p

/-- Path.exists. -/
def FS.hasFile (fs : FS) (p : String) : Bool := (FS.get fs p).isSome

/-- Path.unlink (no error when the path is absent, which matches how the
source guards the unlink with an existence test). -/
def FS.remove : FS → String → FS
  | [], _ => []
  | e :: rest, p => if e.1 = p then FS.remove rest p else e :: FS.remove rest p

/-- Create or overwrite the file at a path. -/
def FS.set (fs : FS) (p : String) (c : Content) : FS := (p, c) :: FS.remove fs p

/-- pathlib Path.with_suffix: drop the final extension (everything from the
last dot on) when there is one, then append the new suffix. -/
def withSuffix (p : String) (suf : String) : String :=
  let rev := p.data.reverse
  if rev.contains (Char.ofNat 46) then
    String.mk (((rev.dropWhile (fun c => c ≠ Char.ofNat 46)).drop 1).reverse ++ suf.data)
  else
    String.mk (p.data ++ suf.data)

/-- history_file.with_suffix applied with .json.backup. -/
def backupPath (p : String) : String := withSuffix p ".json.backup"

/-- history_file.with_suffix applied with .json.tmp. -/
def tmpPath (p : String) : String := withSuffix p ".json.tmp"

/-- HistoryManager: the two configured history file paths.  The lock and the
unused in-memory caches of the source are not part of the functional state. -/
structure HistoryManager where
  rep_history_file : String
  stm_history_file : String
deriving DecidableEq

/-- A HistoryManager built with the default constructor arguments. -/
def histDefault : HistoryManager :=
  ⟨"download_history.json", "stm_download_history.json"⟩

/-- HistoryManager._get_history_file: the stm file for STM, the rep file for
every other download type. -/
def HistoryManager.getHistoryFile (m : HistoryManager) (dt : DownloadType) : String :=
  if dt = DownloadType.STM then m.stm_history_file else m.rep_history_file

/-- HistoryManager.load: empty document when the file is missing, the parsed
document when it parses, and the empty document again when json.load or the
read raises (JSONDecodeError or IOError). -/
def HistoryManager.load (m : HistoryManager) (dt : DownloadType) (fs : FS) : HistoryDoc :=
  match FS.get fs (m.getHistoryFile dt) with
  | none => emptyHistory
  | some (Content.doc d) => d
  | some Content.corrupt => emptyHistory

/-- Outcome of HistoryManager.save: the new file-system state, tagged with
whether the save returned normally or re-raised the write failure. -/
inductive SaveOutcome
  | ok (fs : FS)
  | err (msg : String) (fs : FS)
deriving DecidableEq

/-- The file-system state a save outcome leaves behind. -/
def SaveOutcome.fs : SaveOutcome → FS
  | .ok f => f
  | .err _ f => f

/-- HistoryManager.save with data given (the data=None reload shortcut is not
used by the callers modelled here).  writeOk injects success or failure of
the json.dump into the temp file: on success the temp file is written in full
and then atomically renamed over the live file; on failure the temp file is
unlinked and the exception is re-raised. -/
def HistoryManager.save (m : HistoryManager) (dt : DownloadType) (data : HistoryDoc)
    (writeOk : Bool) (fs : FS) : SaveOutcome :=
  let hf := m.getHistoryFile dt
  let fs1 := match FS.get fs hf with
    | some c => FS.set fs (backupPath hf) c
    | none => fs
  let tf := tmpPath hf
  if writeOk then
    SaveOutcome.ok (FS.set (FS.remove (FS.set fs1 tf (Content.doc data)) tf) hf (Content.doc data))
  else
    SaveOutcome.err "save failed" (FS.remove fs1 tf)

/-- HistoryManager.exists: membership of the filename among the records of
the loaded document. -/
def HistoryManager.existsRecord (m : HistoryManager) (filename : String)
    (dt : DownloadType) (fs : FS) : Bool :=
  (m.load dt fs).downloads.any (fun d => d.filename == filename)

/-- The record dict add_record builds from a DownloadResult. -/
def recordOfResult (r : DownloadResult) : HistoryRecord :=
  { filename := r.filename
    file_path := r.file_path
    file_size := r.file_size
    file_type := r.file_type.map fileTypeValue
    scheme := r.scheme.map schemeValue
    month := r.month
    year := r.year
    download_date := r.download_date
    url := r.url
    metadata := r.metadata }

/-- HistoryManager.add_record: load the family document, append the record,
stamp last_run with the current time (passed in as now), save. -/
def HistoryManager.add_record (m : HistoryManager) (r : DownloadResult) (now : String)
    (writeOk : Bool) (fs : FS) : SaveOutcome :=
  let dt := r.download_type
  let h := m.load dt fs
  m.save dt ⟨some now, h.downloads ++ [recordOfResult r]⟩ writeOk fs

/-- HistoryManager.delete_record on the normal path where the save succeeds:
filter the records, save only when something was removed, report whether a
record was removed. -/
def HistoryManager.delete_record (m : HistoryManager) (filename : String)
    (dt : DownloadType) (fs : FS) : Bool × FS :=
  let h := m.load dt fs
  let kept := h.downloads.filter (fun d => d.filename != filename)
  if kept.length < h.downloads.length then
    (true, (m.save dt ⟨h.last_run, kept⟩ true fs).fs)
  else
    (false, fs)

/-! ### Login heuristic (rep.py login and stm.py login, identical code)

The two HTTP round trips of login are abstracted into their observable
outcome: either the POST (after redirects) yielded a final URL and body, or a
requests.RequestException was raised somewhere in the try block. -/

/-- Observable outcome of the login POST. -/
inductive LoginResponse
  | ok (url : String) (text : String)
  | netErr (msg : String)
deriving DecidableEq

/-- The shared login decision: false exactly when the post-redirect URL still
contains login (case-insensitively) and the body contains error
(case-insensitively), or when a RequestException was raised; true otherwise.
The except handler makes the function total: no exception escapes. -/
def loginCheck : LoginResponse → Bool
  | .ok url text =>
    if strContains (lowerStr url) "login" && strContains (lowerStr text) "error" then false
    else true
  | .netErr _ => false

/-! ### REP downloader (src/eclaim_core/downloaders/rep.py) -/

/-- The retry cap shared by both download_file variants (max_retries = 2). -/
def max_retries : Nat := 2

/-- os.path.join for the simple dir/filename case the source uses. -/
def joinPath (dir name : String) : String := dir ++ "/" ++ name

/-- REPDownloader state relevant to the transfer engine: the download
directory, the configured month and Buddhist-Era year, and the optional
history manager (hasHistory is whether self.history is not None). -/
structure REPDownloader where
  download_dir : String
  month : Nat
  year : Nat
  hasHistory : Bool
  hist : HistoryManager
deriving DecidableEq

/-- REPDownloader.login. -/
def REPDownloader.login : LoginResponse → Bool := loginCheck

/-- REPDownloader._detect_file_type: classification of the uppercased
filename by substring, in the order the source tests them. -/
def REPDownloader.detect_file_type (filename : String) : Option FileType :=
  let fu := upperStr filename
  if strContains fu "_OP_" then some FileType.OP
  else if strContains fu "_IP_" then
    if strContains fu "APPEAL" then
      if strContains fu "NHSO" then some FileType.IP_APPEAL_NHSO
      else some FileType.IP_APPEAL
    else some FileType.IP
  else if strContains fu "_ORF_" then some FileType.ORF
  else none

/-- The skipped DownloadResult built when the filename is already in history. -/
def REPDownloader.skipResult (self : REPDownloader) (link : DownloadLink)
    (fp : String) : DownloadResult :=
  { success := false, filename := link.filename, file_path := fp, file_size := 0
    download_type := DownloadType.REP, file_type := link.file_type, scheme := link.scheme
    month := some self.month, year := some self.year, error := some "skipped" }

/-- The successful DownloadResult for a validated file of n bytes. -/
def REPDownloader.okResult (self : REPDownloader) (link : DownloadLink)
    (fp : String) (n : Nat) : DownloadResult :=
  { success := true, filename := link.filename, file_path := fp, file_size := n
    download_type := DownloadType.REP, file_type := link.file_type, scheme := link.scheme
    month := some self.month, year := some self.year, url := some link.url }

/-- The failure DownloadResult returned once retries are exhausted. -/
def REPDownloader.errResult (self : REPDownloader) (link : DownloadLink)
    (fp : String) (e : String) : DownloadResult :=
  { success := false, filename := link.filename, file_path := fp, file_size := 0
    download_type := DownloadType.REP, file_type := link.file_type, scheme := link.scheme
    month := some self.month, year := some self.year, error := some e }

/-- The fall-through DownloadResult after the for loop (unreachable in
practice, kept for fidelity). -/
def REPDownloader.unknownResult (self : REPDownloader) (link : DownloadLink)
    (fp : String) : DownloadResult :=
  { success := false, filename := link.filename, file_path := fp, file_size := 0
    download_type := DownloadType.REP, error := some "Unknown error" }

/-- str of the ValueError raised for a too-small file in rep.py. -/
def tooSmallMsgRep (n : Nat) : String :=
  "File too small (" ++ toString n ++ " bytes), likely error page"

/-- One attempt of the REP try block.  The fetch input is the observable
outcome of session.get, raise_for_status and the chunked write taken
together: ok n means the body of n bytes is fully on disk at fp, error e
means one of those steps raised an exception with string form e.  The
returned pair is the control outcome of the try body (a raised-and-caught
exception, or the returned DownloadResult) together with the writes the
attempt performed.  Note that a too-small file is written first and then
rejected. -/
def REPDownloader.attempt (self : REPDownloader) (link : DownloadLink) (fp : String)
    (fetch : Except String Nat) : Except String DownloadResult × List (String × Nat) :=
  match fetch with
  | .error e => (.error e, [])
  | .ok n =>
    if n < 100 then (.error (tooSmallMsgRep n), [(fp, n)])
    else (.ok (self.okResult link fp n), [(fp, n)])

/-- The retry for loop of REPDownloader.download_file over the remaining
attempt indices (the source iterates attempt over range of max_retries + 1).
Returns the DownloadResult, the number of attempts performed, and the files
written. -/
def REPDownloader.loop (self : REPDownloader) (link : DownloadLink) (fp : String)
    (fetches : Nat → Except String Nat) :
    List Nat → DownloadResult × Nat × List (String × Nat)
  | [] => (self.unknownResult link fp, 0, [])
  | a :: rest =>
    let res := self.attempt link fp (fetches a)
    match res.1 with
    | .ok r => (r, 1, res.2)
    | .error e =>
      if max_retries ≤ a then (self.errResult link fp e, 1, res.2)
      else
        let t := self.loop link fp fetches rest
        (t.1, t.2.1 + 1, res.2 ++ t.2.2)

/-- REPDownloader.download_file.  fs is the history file system; fetches is
the attempt-indexed network oracle. -/
def REPDownloader.download_file (self : REPDownloader) (fs : FS) (link : DownloadLink)
    (fetches : Nat → Except String Nat) : DownloadResult × Nat × List (String × Nat) :=
  let fp := joinPath self.download_dir link.filename
  if self.hasHistory && self.hist.existsRecord link.filename DownloadType.REP fs then
    (self.skipResult link fp, 0, [])
  else
    self.loop link fp fetches (List.range (max_retries + 1))

/-- BaseDownloader.download_all as run by the REP downloader: transfer each
link in order, and after each success forward the result to
history.add_record when a history manager is configured. -/
def REPDownloader.download_all (self : REPDownloader)
    (oracle : DownloadLink → Nat → Except String Nat) :
    List DownloadLink → FS → List DownloadResult × FS
  | [], fs => ([], fs)
  | link :: rest, fs =>
    let r := (self.download_file fs link (oracle link)).1
    let fs2 := if r.success && self.hasHistory then (self.hist.add_record r "" true fs).fs else fs
    let t := self.download_all oracle rest fs2
    (r :: t.1, t.2)

/-- The run summary dict: either the login-failure dict with success false
and an error message, or the success dict with the four counts. -/
inductive RunSummary
  | failed (error : String)
  | finished (downloaded skipped errors total : Nat)
deriving DecidableEq

/-- Count of results with success true. -/
def countDownloaded (rs : List DownloadResult) : Nat :=
  rs.countP (fun r => r.success)

/-- Count of results whose error equals skipped. -/
def countSkipped (rs : List DownloadResult) : Nat :=
  rs.countP (fun r => r.error == some "skipped")

/-- Python truthiness of r.error combined with the skipped test: an absent
error and the empty string are both falsy. -/
def errTruthy : Option String → Bool
  | none => false
  | some s => s != "" && s != "skipped"

/-- Count of results the source tallies as errors. -/
def countErrors (rs : List DownloadResult) : Nat :=
  rs.countP (fun r => errTruthy r.error)

/-- REPDownloader.run.  Discovery is represented by its outcome: links is the
list get_download_links would return after a successful login (the source
only reaches discovery when login returned true). -/
def REPDownloader.run (self : REPDownloader) (resp : LoginResponse)
    (links : List DownloadLink) (oracle : DownloadLink → Nat → Except String Nat)
    (fs : FS) : RunSummary :=
  if REPDownloader.login resp = false then RunSummary.failed "Login failed"
  else if links.isEmpty then RunSummary.finished 0 0 0 0
  else
    let results := (self.download_all oracle links fs).1
    RunSummary.finished (countDownloaded results) (countSkipped results)
      (countErrors results) results.length

/-! ### STM downloader (src/eclaim_core/downloaders/stm.py) -/

/-- STMDownloader state relevant to the transfer engine. -/
structure STMDownloader where
  download_dir : String
  fiscal_year : Nat
  month : Option Nat
  hasHistory : Bool
  hist : HistoryManager
deriving DecidableEq

/-- STMDownloader.login (same code as the REP variant). -/
def STMDownloader.login : LoginResponse → Bool := loginCheck

/-- Observable outcome of the download POST for one STM attempt: the
Content-Type header and the length of the buffered response body. -/
structure StmResponse where
  content_type : String
  contentLen : Nat
deriving DecidableEq

/-- str of the ValueError raised when the response looks like an HTML error page. -/
def htmlErrMsg : String := "Received HTML instead of file, might be error page"

/-- str of the ValueError raised for a too-small file in stm.py. -/
def tooSmallMsgStm (n : Nat) : String :=
  "File too small (" ++ toString n ++ " bytes)"

/-- The skipped DownloadResult of the STM variant. -/
def STMDownloader.skipResult (self : STMDownloader) (link : DownloadLink)
    (fp : String) : DownloadResult :=
  { success := false, filename := link.filename, file_path := fp, file_size := 0
    download_type := DownloadType.STM, file_type := link.file_type, scheme := link.scheme
    year := some self.fiscal_year, month := self.month, error := some "skipped" }

/-- The DownloadResult returned when link metadata carries no download parameters. -/
def STMDownloader.noParamsResult (self : STMDownloader) (link : DownloadLink)
    (fp : String) : DownloadResult :=
  { success := false, filename := link.filename, file_path := fp, file_size := 0
    download_type := DownloadType.STM, error := some "No download parameters" }

/-- The successful DownloadResult of the STM variant (metadata is passed
through from the link). -/
def STMDownloader.okResult (self : STMDownloader) (link : DownloadLink)
    (fp : String) (n : Nat) : DownloadResult :=
  { success := true, filename := link.filename, file_path := fp, file_size := n
    download_type := DownloadType.STM, file_type := link.file_type, scheme := link.scheme
    year := some self.fiscal_year, month := self.month, url := some link.url
    metadata := link.metadata }

/-- The failure DownloadResult of the STM variant once retries are exhausted
(the source passes no month here). -/
def STMDownloader.errResult (self : STMDownloader) (link : DownloadLink)
    (fp : String) (e : String) : DownloadResult :=
  { success := false, filename := link.filename, file_path := fp, file_size := 0
    download_type := DownloadType.STM, file_type := link.file_type, scheme := link.scheme
    year := some self.fiscal_year, error := some e }

/-- The fall-through DownloadResult of the STM variant. -/
def STMDownloader.unknownResult (self : STMDownloader) (link : DownloadLink)
    (fp : String) : DownloadResult :=
  { success := false, filename := link.filename, file_path := fp, file_size := 0
    download_type := DownloadType.STM, error := some "Unknown error" }

/-- One attempt of the STM try block.  fetch is the observable outcome of the
POST plus raise_for_status: ok gives the Content-Type header and the buffered
body length, error e a raised exception.  An HTML-looking small response is
rejected before anything is written; otherwise the whole body is written and
then the 100-byte floor is checked. -/
def STMDownloader.attempt (self : STMDownloader) (link : DownloadLink) (fp : String)
    (fetch : Except String StmResponse) :
    Except String DownloadResult × List (String × Nat) :=
  match fetch with
  | .error e => (.error e, [])
  | .ok resp =>
    if strContains (lowerStr resp.content_type) "html" && resp.contentLen < 1000 then
      (.error htmlErrMsg, [])
    else
      if resp.contentLen < 100 then
        (.error (tooSmallMsgStm resp.contentLen), [(fp, resp.contentLen)])
      else
        (.ok (self.okResult link fp resp.contentLen), [(fp, resp.contentLen)])

/-- The retry for loop of STMDownloader.download_file. -/
def STMDownloader.loop (self : STMDownloader) (link : DownloadLink) (fp : String)
    (fetches : Nat → Except String StmResponse) :
    List Nat → DownloadResult × Nat × List (String × Nat)
  | [] => (self.unknownResult link fp, 0, [])
  | a :: rest =>
    let res := self.attempt link fp (fetches a)
    match res.1 with
    | .ok r => (r, 1, res.2)
    | .error e =>
      if max_retries ≤ a then (self.errResult link fp e, 1, res.2)
      else
        let t := self.loop link fp fetches rest
        (t.1, t.2.1 + 1, res.2 ++ t.2.2)

/-- STMDownloader.download_file: history check, then the download-parameters
check, then the retry loop. -/
def STMDownloader.download_file (self : STMDownloader) (fs : FS) (link : DownloadLink)
    (fetches : Nat → Except String StmResponse) :
    DownloadResult × Nat × List (String × Nat) :=
  let fp := joinPath self.download_dir link.filename
  if self.hasHistory && self.hist.existsRecord link.filename DownloadType.STM fs then
    (self.skipResult link fp, 0, [])
  else
    match link.metadata.download_params with
    | none => (self.noParamsResult link fp, 0, [])
    | some _ => self.loop link fp fetches (List.range (max_retries + 1))

/-- BaseDownloader.download_all as run by the STM downloader. -/
def STMDownloader.download_all (self : STMDownloader)
    (oracle : DownloadLink → Nat → Except String StmResponse) :
    List DownloadLink → FS → List DownloadResult × FS
  | [], fs => ([], fs)
  | link :: rest, fs =>
    let r := (self.download_file fs link (oracle link)).1
    let fs2 := if r.success && self.hasHistory then (self.hist.add_record r "" true fs).fs else fs
    let t := self.download_all oracle rest fs2
    (r :: t.1, t.2)

/-- STMDownloader.run. -/
def STMDownloader.run (self : STMDownloader) (resp : LoginResponse)
    (links : List DownloadLink) (oracle : DownloadLink → Nat → Except String StmResponse)
    (fs : FS) : RunSummary :=
  if STMDownloader.login resp = false then RunSummary.failed "Login failed"
  else if links.isEmpty then RunSummary.finished 0 0 0 0
  else
    let results := (self.download_all oracle links fs).1
    RunSummary.finished (countDownloaded results) (countSkipped results)
      (countErrors results) results.length

/-! ### Statement list parsing (STMDownloader._parse_statement_list)

The HTML has already been resolved by BeautifulSoup into the data the parser
reads from each table row: the stripped text of its td cells, and the onclick
attribute of the first anchor inside the ninth cell (some of the empty string
when the anchor has no onclick attribute, none when the cell has no anchor).
The downloadBill regular expression is implemented directly: it is
deterministic because every group is a run of non-quote characters closed by
a quote. -/

/-- A table row as the parser observes it. -/
structure StmRow where
  cells : List String
  anchor : Option String
deriving DecidableEq

/-- The apostrophe character, written by code point. -/
def quoteC : Char := Char.ofNat 39

/-- Python regex whitespace for the ASCII range (what separates the quoted
arguments in the onclick attribute). -/
def wsChars : List Char :=
  [' ', Char.ofNat 9, Char.ofNat 10, Char.ofNat 13, Char.ofNat 11, Char.ofNat 12]

/-- Match one quoted group body plus its closing quote: the longest run of
non-quote characters, which must be followed by a quote. -/
def takeQuoted (cs : List Char) : Option (String × List Char) :=
  let g := cs.takeWhile (fun c => c ≠ quoteC)
  match cs.drop g.length with
  | c :: rs => if c = quoteC then some (String.mk g, rs) else none
  | [] => none

/-- Match the separator between two quoted arguments: a comma, optional
whitespace, and the next opening quote. -/
def expectSep (cs : List Char) : Option (List Char) :=
  match cs with
  | c :: rs =>
    if c = ',' then
      match rs.dropWhile (fun c2 => wsChars.contains c2) with
      | q :: rs2 => if q = quoteC then some rs2 else none
      | [] => none
    else none
  | [] => none

/-- Match the downloadBill pattern anchored at the head of the list:
downloadBill, opening parenthesis, then 7 quoted arguments separated by
comma-and-whitespace, then the closing parenthesis. -/
def matchDownloadBillAt (cs : List Char) : Option DownloadParams := do
  let head := ("downloadBill(").data ++ [quoteC]
  if head.isPrefixOf cs then
    let (g1, r1) ← takeQuoted (cs.drop head.length)
    let s1 ← expectSep r1
    let (g2, r2) ← takeQuoted s1
    let s2 ← expectSep r2
    let (g3, r3) ← takeQuoted s2
    let s3 ← expectSep r3
    let (g4, r4) ← takeQuoted s3
    let s4 ← expectSep r4
    let (g5, r5) ← takeQuoted s4
    let s5 ← expectSep r5
    let (g6, r6) ← takeQuoted s5
    let s6 ← expectSep r6
    let (g7, r7) ← takeQuoted s6
    match r7 with
    | c :: _ => if c = ')' then some ⟨g1, g2, g3, g4, g5, g6, g7⟩ else none
    | [] => none
  else none

/-- re.search for the downloadBill pattern: try the anchored match at every
position from the left. -/
def searchDownloadBill : List Char → Option DownloadParams
  | [] => none
  | c :: rest =>
    match matchDownloadBillAt (c :: rest) with
    | some p => some p
    | none => searchDownloadBill rest

/-- The statement download endpoint constant. -/
def stmDownloadUrl : String :=
  "https://eclaim.nhso.go.th/webComponent/ucs/statementUCSDownloadAction.do"

/-- Thai marker for inpatient statements. -/
def thaiIP : String := "ผู้ป่วยใน"

/-- Thai marker for outpatient statements. -/
def thaiOP : String := "ผู้ป่วยนอก"

/-- The body of the per-row loop of _parse_statement_list: none models every
continue (fewer than 9 cells, no anchor, no regex match), some the appended
DownloadLink.  Nothing in the try body can raise for any row value, so the
except handler that logs a parsing warning is unreachable. -/
def parseStatementRow (row : StmRow) : Option DownloadLink :=
  if row.cells.length < 9 then none
  else
    let stmt_no := row.cells.getD 6 ""
    let stmt_type := row.cells.getD 3 ""
    let service_month := row.cells.getD 2 ""
    match row.anchor with
    | none => none
    | some onclick =>
      match searchDownloadBill onclick.data with
      | none => none
      | some ps =>
        let filename := "STM_" ++ ps.document_no ++ ".xls"
        let ft : Option FileType :=
          if strContains stmt_type thaiIP || strContains (upperStr stmt_type) "IP" then
            some FileType.STM_IP
          else if strContains stmt_type thaiOP || strContains (upperStr stmt_type) "OP" then
            some FileType.STM_OP
          else none
        some { url := stmDownloadUrl, filename := filename, file_type := ft
               scheme := some Scheme.UCS
               metadata := { download_params := some ps, stmt_no := stmt_no
                             service_month := service_month, stmt_type := stmt_type } }

/-- STMDownloader._parse_statement_list over the rows of the detail table:
the collected links, together with the warnings logged while parsing (one
per row that raised; empty because the handler is unreachable, see
parseStatementRow). -/
def parseStatementList : List StmRow → List DownloadLink × List String
  | [] => ([], [])
  | row :: rest =>
    let t := parseStatementList rest
    match parseStatementRow row with
    | none => t
    | some l => (l :: t.1, t.2)

/-! ### Concrete instances used by counterexamples and witnesses -/

/-- A REP downloader with history tracking enabled and the default manager. -/
def repWithHist : REPDownloader := ⟨"downloads", 1, 2569, true, histDefault⟩

/-- A REP downloader with history tracking disabled. -/
def repNoHist : REPDownloader := ⟨"downloads", 1, 2569, false, histDefault⟩

/-- An STM downloader with history tracking enabled and the default manager. -/
def stmWithHist : STMDownloader := ⟨"downloads", 2569, none, true, histDefault⟩

/-- A sample REP link. -/
def sampleLink : DownloadLink := { url := "https://eclaim.nhso.go.th/f.xls", filename := "f.xls" }

/-- A fetch oracle whose every attempt raises a connection error. -/
def failOracle : DownloadLink → Nat → Except String Nat :=
  fun _ _ => Except.error "connection refused"

/-- A history document holding one record, used to probe family separation. -/
def smtProbeDoc : HistoryDoc :=
  ⟨some "2026-01-01T00:00:00",
    [{ filename := "budget.xls", file_path := "downloads/budget.xls", file_size := 512
       file_type := none, scheme := none, month := some 1, year := some 2569
       download_date := "2026-01-01T00:00:00", url := none, metadata := {} }]⟩

/-- A pre-save history document for the atomic-save witness. -/
def oldDoc : HistoryDoc := ⟨some "2025-12-31T00:00:00", []⟩

/-- A live REP history file holding oldDoc. -/
def fsWithOldDoc : FS := [("download_history.json", Content.doc oldDoc)]

/-- Sample downloadBill parameters. -/
def sampleParams : DownloadParams :=
  ⟨"10670_IPUCS256710_01", "2", "10670", "HOSP", "BKK", "01/10/2024", "31/10/2024"⟩

/-- An STM link carrying download parameters in its metadata. -/
def stmLink : DownloadLink :=
  { url := stmDownloadUrl, filename := "STM_10670_IPUCS256710_01.xls"
    file_type := some FileType.STM_IP, scheme := some Scheme.UCS
    metadata := { download_params := some sampleParams } }

/-- An STM fetch oracle whose every attempt raises. -/
def stmFailOracle : DownloadLink → Nat → Except String StmResponse :=
  fun _ _ => Except.error "net down"

/-- The apostrophe as a one-character string, for building onclick attributes. -/
def q39 : String := String.mk [Char.ofNat 39]

/-- An onclick attribute whose downloadBill call has only 2 quoted arguments. -/
def badOnclick : String :=
  "downloadBill(" ++ q39 ++ "10670_IPUCS256710_01" ++ q39 ++ ", " ++ q39 ++ "2" ++ q39 ++ ")"

/-- A statement row with 9 cells whose action attribute is malformed. -/
def badRow : StmRow :=
  ⟨["1", "67", "2567-10", "IP", "x", "y", "10670_IPUCS256710_01", "z", "dl"], some badOnclick⟩

/-- A well-formed 7-argument onclick attribute. -/
def goodOnclick : String :=
  "downloadBill(" ++ q39 ++ "10670_IPUCS256710_01" ++ q39 ++ ", " ++ q39 ++ "2" ++ q39 ++
    ", " ++ q39 ++ "10670" ++ q39 ++ ", " ++ q39 ++ "HOSP" ++ q39 ++ ", " ++ q39 ++ "BKK" ++
    q39 ++ ", " ++ q39 ++ "01/10/2024" ++ q39 ++ ", " ++ q39 ++ "31/10/2024" ++ q39 ++ ")"

/-- A statement row that parses into one link. -/
def goodRow : StmRow :=
  ⟨["1", "67", "2567-10", "IP", "x", "y", "10670_IPUCS256710_01", "z", "dl"], some goodOnclick⟩

/-- Three links for the run-summary scenario. -/
def scenLinks : List DownloadLink :=
  [{ url := "u1", filename := "a.xls" }, { url := "u2", filename := "b.xls" },
    { url := "u3", filename := "c.xls" }]

/-- A history file system in which b.xls is already recorded for REP. -/
def scenFS : FS :=
  [("download_history.json", Content.doc
    ⟨some "t", [{ filename := "b.xls", file_path := "downloads/b.xls", file_size := 200
                  file_type := none, scheme := none, month := some 1, year := some 2569
                  download_date := "t", url := none, metadata := {} }]⟩)]

/-- A fetch oracle that always delivers a 200-byte body. -/
def scenOracle : DownloadLink → Nat → Except String Nat := fun _ _ => Except.ok 200

/-- A history file system in which b.xls is already recorded for STM. -/
def stmScenFS : FS :=
  [("stm_download_history.json", Content.doc
    ⟨some "t", [{ filename := "b.xls", file_path := "downloads/b.xls", file_size := 200
                  file_type := none, scheme := none, month := none, year := some 2569
                  download_date := "t", url := none, metadata := {} }]⟩)]

/-! ## Theorems -/

/-! ### File-system lemmas -/

theorem FS.get_remove_self (fs : FS) (p : String) : FS.get (FS.remove fs p) p = none := by
  induction fs with
  | nil => rfl
  | cons e rest ih =>
    by_cases h : e.1 = p <;> simp [FS.remove, FS.get, h, ih]

theorem FS.get_remove_ne (fs : FS) (p q : String) (h : q ≠ p) :
    FS.get (FS.remove fs p) q = FS.get fs q := by
  induction fs with
  | nil => rfl
  | cons e rest ih =>
    by_cases he : e.1 = p
    · have hne : ¬(p = q) := fun hq => h hq.symm
      simp [FS.remove, FS.get, he, hne, ih]
    · simp [FS.remove, FS.get, he, ih]

theorem FS.get_set_self (fs : FS) (p : String) (c : Content) :
    FS.get (FS.set fs p c) p = some c := by
  simp [FS.set, FS.get]

theorem FS.get_set_ne (fs : FS) (p q : String) (c : Content) (h : q ≠ p) :
    FS.get (FS.set fs p c) q = FS.get fs q := by
  have hpq : ¬(p = q) := fun hq => h hq.symm
  simp [FS.set, FS.get, hpq, FS.get_remove_ne fs p q h]

/-- Everything save can touch is the live file, its backup and its temp file;
any other path keeps its content. -/
theorem save_preserves_path (m : HistoryManager) (dt : DownloadType) (d : HistoryDoc)
    (w : Bool) (fs : FS) (p : String)
    (h1 : p ≠ m.getHistoryFile dt) (h2 : p ≠ backupPath (m.getHistoryFile dt))
    (h3 : p ≠ tmpPath (m.getHistoryFile dt)) :
    FS.get ((m.save dt d w fs).fs) p = FS.get fs p := by
  unfold HistoryManager.save
  cases hg : FS.get fs (m.getHistoryFile dt) with
  | none =>
    cases w <;>
      simp [hg, SaveOutcome.fs, FS.get_set_ne _ _ _ _ h1, FS.get_remove_ne _ _ _ h3,
        FS.get_set_ne _ _ _ _ h3]
  | some c =>
    cases w <;>
      simp [hg, SaveOutcome.fs, FS.get_set_ne _ _ _ _ h1, FS.get_remove_ne _ _ _ h3,
        FS.get_set_ne _ _ _ _ h3, FS.get_set_ne _ _ _ _ h2]

/-! ### Claim C4: file-type classification priority -/

/-- Claim C4 counterexample: the source tests the _OP_ marker before the _IP_
marker, so a filename containing both classifies as OP, not as an IP
variant as the claim states. -/
theorem C4_op_beats_ip_counterexample :
    REPDownloader.detect_file_type "A_OP__IP_B.xls" = some FileType.OP ∧
    some FileType.OP ≠ some FileType.IP ∧
    some FileType.OP ≠ some FileType.IP_APPEAL ∧
    some FileType.OP ≠ some FileType.IP_APPEAL_NHSO := by
  exact ⟨by decide, by decide, by decide, by decide⟩

/-- Claim C4 (amended): file-type classification gives _OP_ priority over
_IP_ and _ORF_; among filenames containing _IP_ but not _OP_, an APPEAL
substring with NHSO yields IP_APPEAL_NHSO, an APPEAL substring without NHSO
yields IP_APPEAL, and otherwise plain IP; the concrete IP_APPEAL_NHSO
filename classifies as IP_APPEAL_NHSO; a filename matching no pattern yields
none rather than an error. -/
theorem C4_file_type_priority_amended (fn : String) :
    (strContains (upperStr fn) "_OP_" = true →
      REPDownloader.detect_file_type fn = some FileType.OP) ∧
    (strContains (upperStr fn) "_OP_" = false → strContains (upperStr fn) "_IP_" = true →
      ((strContains (upperStr fn) "APPEAL" = true → strContains (upperStr fn) "NHSO" = true →
          REPDownloader.detect_file_type fn = some FileType.IP_APPEAL_NHSO) ∧
        (strContains (upperStr fn) "APPEAL" = true → strContains (upperStr fn) "NHSO" = false →
          REPDownloader.detect_file_type fn = some FileType.IP_APPEAL) ∧
        (strContains (upperStr fn) "APPEAL" = false →
          REPDownloader.detect_file_type fn = some FileType.IP))) ∧
    (strContains (upperStr fn) "_OP_" = false → strContains (upperStr fn) "_IP_" = false →
      strContains (upperStr fn) "_ORF_" = false →
      REPDownloader.detect_file_type fn = none) ∧
    REPDownloader.detect_file_type "20250101_IP_APPEAL_NHSO_UCS.xls" =
      some FileType.IP_APPEAL_NHSO := by
  refine ⟨fun h1 => by simp [REPDownloader.detect_file_type, h1],
    fun h1 h2 => ⟨fun h3 h4 => by simp [REPDownloader.detect_file_type, h1, h2, h3, h4],
      fun h3 h4 => by simp [REPDownloader.detect_file_type, h1, h2, h3, h4],
      fun h3 => by simp [REPDownloader.detect_file_type, h1, h2, h3]⟩,
    fun h1 h2 h3 => by simp [REPDownloader.detect_file_type, h1, h2, h3],
    by decide⟩

/-- Claim C4 witness: the amended theorem applied to the concrete appeal
filename. -/
theorem C4_file_type_priority_amended_witness :
    REPDownloader.detect_file_type "20250101_IP_APPEAL_NHSO_UCS.xls" =
      some FileType.IP_APPEAL_NHSO :=
  (((C4_file_type_priority_amended "20250101_IP_APPEAL_NHSO_UCS.xls").2.1
    (by decide) (by decide)).1 (by decide) (by decide))

/-! ### Claim C7: login failure heuristic -/

/-- Claim C7: login returns false exactly when the post-redirect URL contains
the login marker (case-insensitively) and the body contains the error marker
(case-insensitively), or a network exception was raised; both variants share
the same decision, and the function is total so a network exception is never
propagated. -/
theorem C7_login_failure_heuristic (resp : LoginResponse) :
    (REPDownloader.login resp = false ↔
      ((∃ u t, resp = LoginResponse.ok u t ∧ strContains (lowerStr u) "login" = true ∧
          strContains (lowerStr t) "error" = true) ∨
        (∃ e, resp = LoginResponse.netErr e))) ∧
    STMDownloader.login resp = REPDownloader.login resp := by
  refine ⟨?_, rfl⟩
  cases resp with
  | ok u t =>
    by_cases h1 : strContains (lowerStr u) "login" = true <;>
      by_cases h2 : strContains (lowerStr t) "error" = true <;>
      simp [REPDownloader.login, loginCheck, h1, h2]
    exact ⟨u, t, ⟨rfl, rfl⟩, h1, h2⟩
  | netErr e => simp [REPDownloader.login, loginCheck]

/-! ### Claim C10: corrupt or missing history resets to the empty document -/

/-- Claim C10: load returns the empty document when the family history file
is missing or unreadable, and then exists is false for every filename, so
deduplication is silently disabled for the family. -/
theorem C10_corrupt_history_resets (m : HistoryManager) (dt : DownloadType) (fs : FS)
    (h : FS.get fs (m.getHistoryFile dt) = none ∨
      FS.get fs (m.getHistoryFile dt) = some Content.corrupt) :
    m.load dt fs = emptyHistory ∧ ∀ fn, m.existsRecord fn dt fs = false := by
  have hl : m.load dt fs = emptyHistory := by
    unfold HistoryManager.load
    rcases h with h | h <;> rw [h]
  refine ⟨hl, fun fn => ?_⟩
  unfold HistoryManager.existsRecord
  rw [hl]
  rfl

/-- Claim C10 witness: a corrupt REP history file under the default manager. -/
theorem C10_corrupt_history_resets_witness :
    histDefault.load DownloadType.REP [("download_history.json", Content.corrupt)] =
      emptyHistory ∧
    histDefault.existsRecord "20250101_OP_UCS.xls" DownloadType.REP
      [("download_history.json", Content.corrupt)] = false := by
  have h := C10_corrupt_history_resets histDefault DownloadType.REP
    [("download_history.json", Content.corrupt)] (Or.inr (by decide))
  exact ⟨h.1, h.2 "20250101_OP_UCS.xls"⟩

/-! ### Claim C5: history file separation by download family -/

/-- Claim C5 counterexample: REP and SMT are distinct download families but
resolve to the same history file, and a save for SMT is visible to a load
for REP. -/
theorem C5_rep_smt_share_file_counterexample :
    histDefault.getHistoryFile DownloadType.REP = histDefault.getHistoryFile DownloadType.SMT ∧
    DownloadType.REP ≠ DownloadType.SMT ∧
    histDefault.load DownloadType.REP
      ((histDefault.save DownloadType.SMT smtProbeDoc true []).fs) = smtProbeDoc ∧
    smtProbeDoc ≠ emptyHistory := by
  exact ⟨by decide, by decide, by decide, by decide⟩

/-- Claim C5 (amended): the store separates STM from the other two families:
whenever exactly one of the two download types is STM, saving, adding a
record or deleting a record for the one leaves the loaded document of the
other unchanged, and the REP and STM files are distinct.  REP and SMT,
however, share one file (see the counterexample). -/
theorem C5_family_isolation_amended (fs : FS) (d : HistoryDoc) (r : DownloadResult)
    (fn now : String) (w : Bool) (dt1 dt2 : DownloadType)
    (hr : r.download_type = dt1)
    (h : (dt1 = DownloadType.STM ∧ dt2 ≠ DownloadType.STM) ∨
      (dt1 ≠ DownloadType.STM ∧ dt2 = DownloadType.STM)) :
    histDefault.load dt2 ((histDefault.save dt1 d w fs).fs) = histDefault.load dt2 fs ∧
    histDefault.load dt2 ((histDefault.add_record r now w fs).fs) = histDefault.load dt2 fs ∧
    histDefault.load dt2 (histDefault.delete_record fn dt1 fs).2 = histDefault.load dt2 fs ∧
    histDefault.getHistoryFile DownloadType.REP ≠ histDefault.getHistoryFile DownloadType.STM := by
  have hload : ∀ g : FS, FS.get g (histDefault.getHistoryFile dt2) =
      FS.get fs (histDefault.getHistoryFile dt2) →
      histDefault.load dt2 g = histDefault.load dt2 fs := by
    intro g hg
    unfold HistoryManager.load
    rw [hg]
  have hsep : ∀ d2 w2, FS.get ((histDefault.save dt1 d2 w2 fs).fs)
      (histDefault.getHistoryFile dt2) = FS.get fs (histDefault.getHistoryFile dt2) := by
    intro d2 w2
    rcases h with ⟨ha, hb⟩ | ⟨ha, hb⟩ <;>
      [(apply save_preserves_path <;>
        simp [ha, HistoryManager.getHistoryFile, histDefault, hb, backupPath, tmpPath] <;>
        decide);
      (apply save_preserves_path <;>
        simp [ha, HistoryManager.getHistoryFile, histDefault, hb, backupPath, tmpPath] <;>
        decide)]
  refine ⟨hload _ (hsep d w), ?_, ?_, by decide⟩
  · unfold HistoryManager.add_record
    rw [hr]
    exact hload _ (hsep _ w)
  · simp only [HistoryManager.delete_record]
    split
    · exact hload _ (hsep _ true)
    · rfl

/-- Claim C5 witness: the amended isolation applied with STM as the mutated
family and REP as the observed family. -/
theorem C5_family_isolation_amended_witness :
    histDefault.load DownloadType.REP
      ((histDefault.save DownloadType.STM smtProbeDoc true []).fs) =
      histDefault.load DownloadType.REP [] :=
  (C5_family_isolation_amended [] smtProbeDoc
    { success := true, filename := "STM_x.xls", file_path := "downloads/STM_x.xls"
      file_size := 512, download_type := DownloadType.STM }
    "STM_x.xls" "2026-01-01T00:00:00" true DownloadType.STM DownloadType.REP rfl
    (Or.inl ⟨rfl, by decide⟩)).1

/-! ### Claim C6: atomic save discipline -/

/-- Claim C6: every save first mirrors an existing live file into its .backup
sibling; on a successful temp write the live file ends up holding exactly the
new content with the temp file gone; on a failed temp write the save raises,
the live file is untouched and the temp file is removed. -/
theorem C6_atomic_save (m : HistoryManager) (dt : DownloadType) (d : HistoryDoc)
    (fs : FS) (w : Bool)
    (hb : backupPath (m.getHistoryFile dt) ≠ m.getHistoryFile dt)
    (ht : tmpPath (m.getHistoryFile dt) ≠ m.getHistoryFile dt)
    (hbt : backupPath (m.getHistoryFile dt) ≠ tmpPath (m.getHistoryFile dt)) :
    (FS.hasFile fs (m.getHistoryFile dt) = true →
      FS.get ((m.save dt d w fs).fs) (backupPath (m.getHistoryFile dt)) =
        FS.get fs (m.getHistoryFile dt)) ∧
    (w = true →
      m.save dt d w fs = SaveOutcome.ok ((m.save dt d w fs).fs) ∧
      FS.get ((m.save dt d w fs).fs) (m.getHistoryFile dt) = some (Content.doc d) ∧
      FS.get ((m.save dt d w fs).fs) (tmpPath (m.getHistoryFile dt)) = none) ∧
    (w = false →
      m.save dt d w fs = SaveOutcome.err "save failed" ((m.save dt d w fs).fs) ∧
      FS.get ((m.save dt d w fs).fs) (m.getHistoryFile dt) =
        FS.get fs (m.getHistoryFile dt) ∧
      FS.get ((m.save dt d w fs).fs) (tmpPath (m.getHistoryFile dt)) = none) := by
  have hb2 : m.getHistoryFile dt ≠ backupPath (m.getHistoryFile dt) := fun hx => hb hx.symm
  have ht2 : m.getHistoryFile dt ≠ tmpPath (m.getHistoryFile dt) := fun hx => ht hx.symm
  cases w
  · cases hg : FS.get fs (m.getHistoryFile dt) with
    | none =>
      have hs : m.save dt d false fs =
          SaveOutcome.err "save failed" (FS.remove fs (tmpPath (m.getHistoryFile dt))) := by
        unfold HistoryManager.save
        simp [hg]
      refine ⟨fun hhas => ?_, fun hw => by exact absurd hw (by decide), fun _ => ?_⟩
      · exfalso
        unfold FS.hasFile at hhas
        rw [hg] at hhas
        simp at hhas
      · refine ⟨by rw [hs]; rfl, ?_, ?_⟩
        · rw [hs]
          simp only [SaveOutcome.fs]
          rw [FS.get_remove_ne fs _ _ ht2]
          exact hg
        · rw [hs]
          simp only [SaveOutcome.fs]
          exact FS.get_remove_self fs _
    | some c =>
      have hs : m.save dt d false fs =
          SaveOutcome.err "save failed"
            (FS.remove (FS.set fs (backupPath (m.getHistoryFile dt)) c)
              (tmpPath (m.getHistoryFile dt))) := by
        unfold HistoryManager.save
        simp [hg]
      refine ⟨fun _ => ?_, fun hw => by exact absurd hw (by decide), fun _ => ?_⟩
      · rw [hs]
        simp only [SaveOutcome.fs]
        rw [FS.get_remove_ne _ _ _ hbt, FS.get_set_self]
      · refine ⟨by rw [hs]; rfl, ?_, ?_⟩
        · rw [hs]
          simp only [SaveOutcome.fs]
          rw [FS.get_remove_ne _ _ _ ht2, FS.get_set_ne _ _ _ _ hb2]
          exact hg
        · rw [hs]
          simp only [SaveOutcome.fs]
          exact FS.get_remove_self _ _
  · cases hg : FS.get fs (m.getHistoryFile dt) with
    | none =>
      have hs : m.save dt d true fs =
          SaveOutcome.ok (FS.set (FS.remove
            (FS.set fs (tmpPath (m.getHistoryFile dt)) (Content.doc d))
            (tmpPath (m.getHistoryFile dt))) (m.getHistoryFile dt) (Content.doc d)) := by
        unfold HistoryManager.save
        simp [hg]
      refine ⟨fun hhas => ?_, fun _ => ?_, fun hw => by exact absurd hw (by decide)⟩
      · exfalso
        unfold FS.hasFile at hhas
        rw [hg] at hhas
        simp at hhas
      · refine ⟨by rw [hs]; rfl, ?_, ?_⟩
        · rw [hs]
          simp only [SaveOutcome.fs]
          exact FS.get_set_self _ _ _
        · rw [hs]
          simp only [SaveOutcome.fs]
          rw [FS.get_set_ne _ _ _ _ ht, FS.get_remove_self]
    | some c =>
      have hs : m.save dt d true fs =
          SaveOutcome.ok (FS.set (FS.remove
            (FS.set (FS.set fs (backupPath (m.getHistoryFile dt)) c)
              (tmpPath (m.getHistoryFile dt)) (Content.doc d))
            (tmpPath (m.getHistoryFile dt))) (m.getHistoryFile dt) (Content.doc d)) := by
        unfold HistoryManager.save
        simp [hg]
      refine ⟨fun _ => ?_, fun _ => ?_, fun hw => by exact absurd hw (by decide)⟩
      · rw [hs]
        simp only [SaveOutcome.fs]
        rw [FS.get_set_ne _ _ _ _ hb, FS.get_remove_ne _ _ _ hbt,
          FS.get_set_ne _ _ _ _ hbt, FS.get_set_self]
      · refine ⟨by rw [hs]; rfl, ?_, ?_⟩
        · rw [hs]
          simp only [SaveOutcome.fs]
          exact FS.get_set_self _ _ _
        · rw [hs]
          simp only [SaveOutcome.fs]
          rw [FS.get_set_ne _ _ _ _ ht, FS.get_remove_self]

/-- Claim C6 witness: a failed save of the default REP history leaves the
live document untouched, removes the temp file, keeps the backup equal to the
pre-save live file, and surfaces the error. -/
theorem C6_atomic_save_witness :
    FS.get ((histDefault.save DownloadType.REP emptyHistory false fsWithOldDoc).fs)
        (histDefault.getHistoryFile DownloadType.REP) =
      FS.get fsWithOldDoc (histDefault.getHistoryFile DownloadType.REP) ∧
    FS.get ((histDefault.save DownloadType.REP emptyHistory false fsWithOldDoc).fs)
        (tmpPath (histDefault.getHistoryFile DownloadType.REP)) = none ∧
    FS.get ((histDefault.save DownloadType.REP emptyHistory false fsWithOldDoc).fs)
        (backupPath (histDefault.getHistoryFile DownloadType.REP)) =
      some (Content.doc oldDoc) ∧
    histDefault.save DownloadType.REP emptyHistory false fsWithOldDoc =
      SaveOutcome.err "save failed"
        ((histDefault.save DownloadType.REP emptyHistory false fsWithOldDoc).fs) := by
  have h := C6_atomic_save histDefault DownloadType.REP emptyHistory fsWithOldDoc false
    (by decide) (by decide) (by decide)
  refine ⟨(h.2.2 rfl).2.1, (h.2.2 rfl).2.2, ?_, (h.2.2 rfl).1⟩
  rw [h.1 (by decide)]
  decide

/-! ### Claim C3: the 100-byte validation boundary -/

/-- Claim C3: on a single fetch attempt a written 99-byte body is rejected
with the too-small validation error (which feeds the retry loop), a 100-byte
body of non-HTML content is accepted as a success with file_size 100, and
acceptance is exactly at 100 bytes, in both the REP and STM variants. -/
theorem C3_size_boundary (selfR : REPDownloader) (selfS : STMDownloader)
    (linkR linkS : DownloadLink) (fpR fpS : String) (ct : String)
    (hct : strContains (lowerStr ct) "html" = false) :
    (selfR.attempt linkR fpR (Except.ok 99)).1 = Except.error (tooSmallMsgRep 99) ∧
    (selfR.attempt linkR fpR (Except.ok 99)).2 = [(fpR, 99)] ∧
    (selfR.attempt linkR fpR (Except.ok 100)).1 = Except.ok (selfR.okResult linkR fpR 100) ∧
    (selfR.okResult linkR fpR 100).success = true ∧
    (selfR.okResult linkR fpR 100).file_size = 100 ∧
    (∀ n : Nat, (∃ r, (selfR.attempt linkR fpR (Except.ok n)).1 = Except.ok r) ↔ 100 ≤ n) ∧
    (selfS.attempt linkS fpS (Except.ok ⟨ct, 99⟩)).1 = Except.error (tooSmallMsgStm 99) ∧
    (selfS.attempt linkS fpS (Except.ok ⟨ct, 99⟩)).2 = [(fpS, 99)] ∧
    (selfS.attempt linkS fpS (Except.ok ⟨ct, 100⟩)).1 = Except.ok (selfS.okResult linkS fpS 100) ∧
    (selfS.okResult linkS fpS 100).success = true ∧
    (selfS.okResult linkS fpS 100).file_size = 100 ∧
    (∀ n : Nat, (∃ r, (selfS.attempt linkS fpS (Except.ok ⟨ct, n⟩)).1 = Except.ok r) ↔ 100 ≤ n) := by
  refine ⟨by simp [REPDownloader.attempt], by simp [REPDownloader.attempt],
    by simp [REPDownloader.attempt], rfl, rfl, ?_,
    by simp [STMDownloader.attempt, hct], by simp [STMDownloader.attempt, hct],
    by simp [STMDownloader.attempt, hct], rfl, rfl, ?_⟩
  · intro n
    rcases Nat.lt_or_ge n 100 with h | h
    · have he : (selfR.attempt linkR fpR (Except.ok n)).1 = Except.error (tooSmallMsgRep n) := by
        simp [REPDownloader.attempt, h]
      rw [he]
      simp
      omega
    · have he : (selfR.attempt linkR fpR (Except.ok n)).1 =
          Except.ok (selfR.okResult linkR fpR n) := by
        simp [REPDownloader.attempt, Nat.not_lt.mpr h]
      rw [he]
      simp [h]
  · intro n
    rcases Nat.lt_or_ge n 100 with h | h
    · have he : (selfS.attempt linkS fpS (Except.ok ⟨ct, n⟩)).1 =
          Except.error (tooSmallMsgStm n) := by
        simp [STMDownloader.attempt, hct, h]
      rw [he]
      simp
      omega
    · have he : (selfS.attempt linkS fpS (Except.ok ⟨ct, n⟩)).1 =
          Except.ok (selfS.okResult linkS fpS n) := by
        simp [STMDownloader.attempt, hct, Nat.not_lt.mpr h]
      rw [he]
      simp [h]

/-- Claim C3 witness: the boundary at concrete inputs with a spreadsheet
content type. -/
theorem C3_size_boundary_witness :
    (repNoHist.attempt sampleLink "downloads/f.xls" (Except.ok 100)).1 =
      Except.ok (repNoHist.okResult sampleLink "downloads/f.xls" 100) ∧
    (stmWithHist.attempt sampleLink "downloads/f.xls"
        (Except.ok ⟨"application/vnd.ms-excel", 99⟩)).1 =
      Except.error (tooSmallMsgStm 99) := by
  have h := C3_size_boundary repNoHist stmWithHist sampleLink sampleLink
    "downloads/f.xls" "downloads/f.xls" "application/vnd.ms-excel" (by decide)
  exact ⟨h.2.2.1, h.2.2.2.2.2.2.1⟩

/-! ### Claim C2: the retry cap of 3 attempts -/

/-- Claim C2: for a link that is not skipped by deduplication, if every
attempt of the try block fails, download_file performs exactly 3 attempts
(1 initial plus max_retries = 2 retries) and returns a non-success result
whose error is the string form of the exception of the last attempt; the
loop is structurally finite, so it always terminates.  Both variants. -/
theorem C2_retry_cap (selfR : REPDownloader) (selfS : STMDownloader)
    (linkR linkS : DownloadLink) (fsR fsS : FS) (p : DownloadParams)
    (fR : Nat → Except String Nat) (fS : Nat → Except String StmResponse)
    (mR mS : Nat → String)
    (hSkipR : (selfR.hasHistory &&
      selfR.hist.existsRecord linkR.filename DownloadType.REP fsR) = false)
    (hSkipS : (selfS.hasHistory &&
      selfS.hist.existsRecord linkS.filename DownloadType.STM fsS) = false)
    (hParams : linkS.metadata.download_params = some p)
    (hFailR : ∀ i, (selfR.attempt linkR (joinPath selfR.download_dir linkR.filename) (fR i)).1 =
      Except.error (mR i))
    (hFailS : ∀ i, (selfS.attempt linkS (joinPath selfS.download_dir linkS.filename) (fS i)).1 =
      Except.error (mS i)) :
    (selfR.download_file fsR linkR fR).1 =
      selfR.errResult linkR (joinPath selfR.download_dir linkR.filename) (mR 2) ∧
    (selfR.download_file fsR linkR fR).1.success = false ∧
    (selfR.download_file fsR linkR fR).1.error = some (mR 2) ∧
    (selfR.download_file fsR linkR fR).2.1 = 3 ∧
    (selfS.download_file fsS linkS fS).1 =
      selfS.errResult linkS (joinPath selfS.download_dir linkS.filename) (mS 2) ∧
    (selfS.download_file fsS linkS fS).1.success = false ∧
    (selfS.download_file fsS linkS fS).1.error = some (mS 2) ∧
    (selfS.download_file fsS linkS fS).2.1 = 3 := by
  have hrange : List.range (max_retries + 1) = [0, 1, 2] := rfl
  have e0R : (selfR.loop linkR (joinPath selfR.download_dir linkR.filename) fR [0, 1, 2]).1 =
        selfR.errResult linkR (joinPath selfR.download_dir linkR.filename) (mR 2) ∧
      (selfR.loop linkR (joinPath selfR.download_dir linkR.filename) fR [0, 1, 2]).2.1 = 3 := by
    constructor <;> simp [REPDownloader.loop, hFailR, max_retries]
  have hdfR : selfR.download_file fsR linkR fR =
      selfR.loop linkR (joinPath selfR.download_dir linkR.filename) fR [0, 1, 2] := by
    unfold REPDownloader.download_file
    rw [hrange]
    simp [hSkipR]
  have e0S : (selfS.loop linkS (joinPath selfS.download_dir linkS.filename) fS [0, 1, 2]).1 =
        selfS.errResult linkS (joinPath selfS.download_dir linkS.filename) (mS 2) ∧
      (selfS.loop linkS (joinPath selfS.download_dir linkS.filename) fS [0, 1, 2]).2.1 = 3 := by
    constructor <;> simp [STMDownloader.loop, hFailS, max_retries]
  have hdfS : selfS.download_file fsS linkS fS =
      selfS.loop linkS (joinPath selfS.download_dir linkS.filename) fS [0, 1, 2] := by
    unfold STMDownloader.download_file
    rw [hrange]
    simp [hSkipS, hParams]
  rw [hdfR, hdfS]
  exact ⟨e0R.1, by rw [e0R.1]; rfl, by rw [e0R.1]; rfl, e0R.2,
    e0S.1, by rw [e0S.1]; rfl, by rw [e0S.1]; rfl, e0S.2⟩

/-- Claim C2 witness: always-failing oracles exhaust exactly 3 attempts in
both variants and surface the last message. -/
theorem C2_retry_cap_witness :
    (repNoHist.download_file [] sampleLink (failOracle sampleLink)).2.1 = 3 ∧
    (repNoHist.download_file [] sampleLink (failOracle sampleLink)).1.error =
      some "connection refused" ∧
    (stmWithHist.download_file [] stmLink (stmFailOracle stmLink)).2.1 = 3 ∧
    (stmWithHist.download_file [] stmLink (stmFailOracle stmLink)).1.error =
      some "net down" := by
  have h := C2_retry_cap repNoHist stmWithHist sampleLink stmLink [] [] sampleParams
    (failOracle sampleLink) (stmFailOracle stmLink)
    (fun _ => "connection refused") (fun _ => "net down")
    (by decide) (by decide) rfl (fun _ => rfl) (fun _ => rfl)
  exact ⟨h.2.2.2.1, h.2.2.1, h.2.2.2.2.2.2.2, h.2.2.2.2.2.2.1⟩

/-! ### Shared result-shape and history lemmas -/

/-- Every result the REP retry loop can produce carries the filename of the
link and the REP download type. -/
theorem rep_loop_shape (self : REPDownloader) (link : DownloadLink) (fp : String)
    (fetches : Nat → Except String Nat) (l : List Nat) :
    ((self.loop link fp fetches l).1).filename = link.filename ∧
    ((self.loop link fp fetches l).1).download_type = DownloadType.REP := by
  induction l with
  | nil =>
    exact ⟨rfl, rfl⟩
  | cons a rest ih =>
    cases hf : fetches a with
    | error e =>
      by_cases ha : max_retries ≤ a <;>
        simp [REPDownloader.loop, REPDownloader.attempt, hf, ha, ih,
          REPDownloader.errResult]
    | ok n =>
      by_cases hn : n < 100 <;> by_cases ha : max_retries ≤ a <;>
        simp [REPDownloader.loop, REPDownloader.attempt, hf, hn, ha, ih,
          REPDownloader.errResult, REPDownloader.okResult]

/-- Every result of REPDownloader.download_file carries the filename of the
link and the REP download type. -/
theorem rep_result_shape (self : REPDownloader) (fs : FS) (link : DownloadLink)
    (fetches : Nat → Except String Nat) :
    ((self.download_file fs link fetches).1).filename = link.filename ∧
    ((self.download_file fs link fetches).1).download_type = DownloadType.REP := by
  by_cases hc : self.hasHistory && self.hist.existsRecord link.filename DownloadType.REP fs
  · simp [REPDownloader.download_file, hc, REPDownloader.skipResult]
  · simp only [REPDownloader.download_file, hc, Bool.false_eq_true, if_false]
    exact rep_loop_shape self link _ fetches _

/-- After a successful save, the live family file holds exactly the saved
document. -/
theorem save_live_content (m : HistoryManager) (dt : DownloadType) (d : HistoryDoc)
    (fs : FS) :
    FS.get ((m.save dt d true fs).fs) (m.getHistoryFile dt) = some (Content.doc d) := by
  unfold HistoryManager.save
  cases hg : FS.get fs (m.getHistoryFile dt) <;>
    simp [hg, SaveOutcome.fs, FS.get_set_self]

/-- Loading a family right after saving a document for it returns that
document. -/
theorem load_after_save (m : HistoryManager) (dt : DownloadType) (d : HistoryDoc)
    (fs : FS) : m.load dt ((m.save dt d true fs).fs) = d := by
  unfold HistoryManager.load
  rw [save_live_content]

/-- After add_record, the recorded filename exists for the family of the
result. -/
theorem exists_after_add (m : HistoryManager) (r : DownloadResult) (now : String)
    (fs : FS) :
    m.existsRecord r.filename r.download_type ((m.add_record r now true fs).fs) = true := by
  unfold HistoryManager.existsRecord HistoryManager.add_record
  rw [load_after_save]
  simp [recordOfResult]

/-- When the history check fires, REP download_file returns the skip triple. -/
theorem rep_download_file_skips (self : REPDownloader) (fs : FS) (link : DownloadLink)
    (fetches : Nat → Except String Nat)
    (h : (self.hasHistory && self.hist.existsRecord link.filename DownloadType.REP fs) = true) :
    self.download_file fs link fetches =
      (self.skipResult link (joinPath self.download_dir link.filename), 0, []) := by
  unfold REPDownloader.download_file
  simp [h]

/-! ### Claim C1: deduplication skip -/

/-- Claim C1 counterexample: with history enabled and an always-failing
fetch, the first transfer of the link errors and records nothing, so a
second transfer of the same link is not skipped but re-fetches (3 attempts)
and errors again, refuting that a second transfer always yields the skipped
result. -/
theorem C1_second_transfer_not_skipped_counterexample :
    ((repWithHist.download_file ((repWithHist.download_all failOracle [sampleLink] []).2)
        sampleLink (failOracle sampleLink)).1).error = some "connection refused" ∧
    ((repWithHist.download_file ((repWithHist.download_all failOracle [sampleLink] []).2)
        sampleLink (failOracle sampleLink)).1).error ≠ some "skipped" ∧
    (repWithHist.download_file ((repWithHist.download_all failOracle [sampleLink] []).2)
        sampleLink (failOracle sampleLink)).2.1 = 3 := by
  exact ⟨by decide, by decide, by decide⟩

/-- Claim C1 (amended): when a history manager is configured and the link
filename already exists in history for the family, download_file (REP and
STM alike) returns immediately the skipped result with success false, error
skipped and size zero, performing no fetch and writing no file; and a second
transfer of a link whose first transfer through the engine succeeded (and
was therefore recorded) yields the skipped result. -/
theorem C1_dedup_skip_amended (selfR : REPDownloader) (selfS : STMDownloader)
    (linkR linkS link0 : DownloadLink) (fsR fsS fs0 : FS)
    (fR : Nat → Except String Nat) (fS : Nat → Except String StmResponse)
    (oracle : DownloadLink → Nat → Except String Nat)
    (hHR : selfR.hasHistory = true)
    (hExR : selfR.hist.existsRecord linkR.filename DownloadType.REP fsR = true)
    (hHS : selfS.hasHistory = true)
    (hExS : selfS.hist.existsRecord linkS.filename DownloadType.STM fsS = true)
    (hSucc : ((selfR.download_file fs0 link0 (oracle link0)).1).success = true) :
    selfR.download_file fsR linkR fR =
      (selfR.skipResult linkR (joinPath selfR.download_dir linkR.filename), 0, []) ∧
    (selfR.skipResult linkR (joinPath selfR.download_dir linkR.filename)).success = false ∧
    (selfR.skipResult linkR (joinPath selfR.download_dir linkR.filename)).error =
      some "skipped" ∧
    (selfR.skipResult linkR (joinPath selfR.download_dir linkR.filename)).file_size = 0 ∧
    selfS.download_file fsS linkS fS =
      (selfS.skipResult linkS (joinPath selfS.download_dir linkS.filename), 0, []) ∧
    (selfS.skipResult linkS (joinPath selfS.download_dir linkS.filename)).success = false ∧
    (selfS.skipResult linkS (joinPath selfS.download_dir linkS.filename)).error =
      some "skipped" ∧
    (selfS.skipResult linkS (joinPath selfS.download_dir linkS.filename)).file_size = 0 ∧
    selfR.download_file ((selfR.download_all oracle [link0] fs0).2) link0 (oracle link0) =
      (selfR.skipResult link0 (joinPath selfR.download_dir link0.filename), 0, []) := by
  refine ⟨by simp [REPDownloader.download_file, hHR, hExR], rfl, rfl, rfl,
    by simp [STMDownloader.download_file, hHS, hExS], rfl, rfl, rfl, ?_⟩
  have hshape := rep_result_shape selfR fs0 link0 (oracle link0)
  have hda : (selfR.download_all oracle [link0] fs0).2 =
      (selfR.hist.add_record ((selfR.download_file fs0 link0 (oracle link0)).1) "" true fs0).fs := by
    simp [REPDownloader.download_all, hSucc, hHR]
  have hex2 : selfR.hist.existsRecord link0.filename DownloadType.REP
      ((selfR.hist.add_record ((selfR.download_file fs0 link0 (oracle link0)).1) "" true fs0).fs) =
      true := by
    have h := exists_after_add selfR.hist ((selfR.download_file fs0 link0 (oracle link0)).1) "" fs0
    rw [hshape.1, hshape.2] at h
    exact h
  rw [hda]
  exact rep_download_file_skips selfR _ link0 (oracle link0) (by rw [hHR, hex2]; rfl)

/-- Claim C1 witness: a history containing b.xls makes its transfer skip in
both variants, and after a successful first transfer of a fresh link the
second transfer skips. -/
theorem C1_dedup_skip_amended_witness :
    repWithHist.download_file scenFS
        { url := "u2", filename := "b.xls" } (fun _ => Except.ok 200) =
      (repWithHist.skipResult { url := "u2", filename := "b.xls" } "downloads/b.xls", 0, []) ∧
    repWithHist.download_file ((repWithHist.download_all scenOracle
        [{ url := "u1", filename := "a.xls" }] []).2)
        { url := "u1", filename := "a.xls" }
        (scenOracle { url := "u1", filename := "a.xls" }) =
      (repWithHist.skipResult { url := "u1", filename := "a.xls" } "downloads/a.xls", 0, []) := by
  have h := C1_dedup_skip_amended repWithHist stmWithHist
    { url := "u2", filename := "b.xls" } { url := "u2", filename := "b.xls" }
    { url := "u1", filename := "a.xls" } scenFS stmScenFS []
    (fun _ => Except.ok 200) (fun _ => Except.error "x") scenOracle
    rfl (by decide) rfl (by decide) (by decide)
  exact ⟨h.1, h.2.2.2.2.2.2.2.2⟩

/-! ### Claim C8: malformed statement rows -/

/-- The statement parser never produces warnings: every skip path is a bare
continue, and nothing in the per-row code can raise, so the handler that
would log a parsing warning is dead. -/
theorem parse_warnings_empty (rows : List StmRow) : (parseStatementList rows).2 = [] := by
  induction rows with
  | nil => rfl
  | cons r rest ih =>
    simp only [parseStatementList]
    cases parseStatementRow r <;> simp [ih]

/-- Claim C8 counterexample: a 9-cell row with an anchor whose downloadBill
action has only 2 quoted arguments is excluded from the links, and the
parser emits no warning for it, contradicting the claimed logged warning. -/
theorem C8_no_warning_counterexample :
    parseStatementList [badRow] = ([], []) ∧
    badRow.cells.length = 9 ∧
    badRow.anchor = some badOnclick ∧
    searchDownloadBill badOnclick.data = none := by
  exact ⟨by decide, by decide, by decide, by decide⟩

/-- Claim C8 (amended): a row whose action attribute does not match the
7-quoted-argument downloadBill shape is excluded from the returned link list
and parsing of the remaining rows continues, without raising; however no
warning is logged for such a row (the parser emits a warning only from its
exception handler, which a regex mismatch never reaches). -/
theorem C8_malformed_row_excluded_amended (pre post : List StmRow) (row : StmRow)
    (oc : String) (h9 : 9 ≤ row.cells.length) (hA : row.anchor = some oc)
    (hM : searchDownloadBill oc.data = none) :
    parseStatementList (pre ++ row :: post) = parseStatementList (pre ++ post) ∧
    (parseStatementList (pre ++ row :: post)).2 = [] := by
  have hrow : parseStatementRow row = none := by
    unfold parseStatementRow
    simp [Nat.not_lt.mpr h9, hA, hM]
  have key : ∀ pre2 : List StmRow,
      parseStatementList (pre2 ++ row :: post) = parseStatementList (pre2 ++ post) := by
    intro pre2
    induction pre2 with
    | nil => simp [parseStatementList, hrow]
    | cons q2 qs ih =>
      simp only [List.cons_append, parseStatementList, List.append_eq]
      rw [ih]
  exact ⟨key pre, parse_warnings_empty _⟩

/-- Claim C8 witness: a well-formed row followed by a malformed row parses
the same as the well-formed row alone, yielding exactly one link and no
warning. -/
theorem C8_malformed_row_excluded_amended_witness :
    parseStatementList [goodRow, badRow] = parseStatementList [goodRow] ∧
    (parseStatementList [goodRow, badRow]).2 = [] ∧
    (parseStatementList [goodRow]).1.length = 1 := by
  have h := C8_malformed_row_excluded_amended [goodRow] [] badRow badOnclick
    (by decide) rfl (by decide)
  exact ⟨h.1, h.2, by decide⟩

/-! ### Claim C9: run summary counts -/

theorem str_append_ne_empty (s t : String) (h : s.data ≠ []) : s ++ t ≠ "" := by
  intro he
  have h2 : s.data ++ t.data = [] := congrArg String.data he
  exact h (List.append_eq_nil.mp h2).1

theorem tooSmallMsgRep_ne_empty (n : Nat) : tooSmallMsgRep n ≠ "" := by
  unfold tooSmallMsgRep
  apply str_append_ne_empty
  show ("File too small (").data ++ (toString n).data ≠ []
  simp

theorem tooSmallMsgStm_ne_empty (n : Nat) : tooSmallMsgStm n ≠ "" := by
  unfold tooSmallMsgStm
  apply str_append_ne_empty
  show ("File too small (").data ++ (toString n).data ≠ []
  simp

/-- Every result of the REP retry loop is either a success with no error, or
a non-success carrying a nonempty error message, provided no attempt raises
an exception whose string form is empty. -/
theorem rep_loop_class (self : REPDownloader) (link : DownloadLink) (fp : String)
    (fetches : Nat → Except String Nat) (hne : ∀ i, fetches i ≠ Except.error "")
    (l : List Nat) :
    (((self.loop link fp fetches l).1).success = true ∧
      ((self.loop link fp fetches l).1).error = none) ∨
    (((self.loop link fp fetches l).1).success = false ∧
      ∃ s, ((self.loop link fp fetches l).1).error = some s ∧ s ≠ "") := by
  induction l with
  | nil =>
    right
    exact ⟨rfl, "Unknown error", rfl, by decide⟩
  | cons a rest ih =>
    cases hf : fetches a with
    | error e =>
      have he : e ≠ "" := fun hcon => hne a (by rw [hf, hcon])
      by_cases ha : max_retries ≤ a
      · right
        refine ⟨?_, e, ?_, he⟩ <;>
          simp [REPDownloader.loop, REPDownloader.attempt, hf, ha, REPDownloader.errResult]
      · have hunf : ((self.loop link fp fetches (a :: rest)).1) =
            ((self.loop link fp fetches rest).1) := by
          simp [REPDownloader.loop, REPDownloader.attempt, hf, ha]
        rw [hunf]
        exact ih
    | ok n =>
      by_cases hn : n < 100
      · by_cases ha : max_retries ≤ a
        · right
          refine ⟨?_, tooSmallMsgRep n, ?_, tooSmallMsgRep_ne_empty n⟩ <;>
            simp [REPDownloader.loop, REPDownloader.attempt, hf, hn, ha,
              REPDownloader.errResult]
        · have hunf : ((self.loop link fp fetches (a :: rest)).1) =
              ((self.loop link fp fetches rest).1) := by
            simp [REPDownloader.loop, REPDownloader.attempt, hf, hn, ha]
          rw [hunf]
          exact ih
      · left
        constructor <;>
          simp [REPDownloader.loop, REPDownloader.attempt, hf, hn, REPDownloader.okResult]

/-- Result classification for REP download_file. -/
theorem rep_result_class (self : REPDownloader) (fs : FS) (link : DownloadLink)
    (fetches : Nat → Except String Nat) (hne : ∀ i, fetches i ≠ Except.error "") :
    (((self.download_file fs link fetches).1).success = true ∧
      ((self.download_file fs link fetches).1).error = none) ∨
    (((self.download_file fs link fetches).1).success = false ∧
      ∃ s, ((self.download_file fs link fetches).1).error = some s ∧ s ≠ "") := by
  by_cases hc : self.hasHistory && self.hist.existsRecord link.filename DownloadType.REP fs
  · right
    rw [rep_download_file_skips self fs link fetches hc]
    exact ⟨rfl, "skipped", rfl, by decide⟩
  · have hd : self.download_file fs link fetches =
        self.loop link (joinPath self.download_dir link.filename) fetches
          (List.range (max_retries + 1)) := by
      unfold REPDownloader.download_file
      simp [hc]
    rw [hd]
    exact rep_loop_class self link _ fetches hne _

/-- Every result of the STM retry loop is either a success with no error, or
a non-success carrying a nonempty error message. -/
theorem stm_loop_class (self : STMDownloader) (link : DownloadLink) (fp : String)
    (fetches : Nat → Except String StmResponse) (hne : ∀ i, fetches i ≠ Except.error "")
    (l : List Nat) :
    (((self.loop link fp fetches l).1).success = true ∧
      ((self.loop link fp fetches l).1).error = none) ∨
    (((self.loop link fp fetches l).1).success = false ∧
      ∃ s, ((self.loop link fp fetches l).1).error = some s ∧ s ≠ "") := by
  induction l with
  | nil =>
    right
    exact ⟨rfl, "Unknown error", rfl, by decide⟩
  | cons a rest ih =>
    cases hf : fetches a with
    | error e =>
      have he : e ≠ "" := fun hcon => hne a (by rw [hf, hcon])
      by_cases ha : max_retries ≤ a
      · right
        refine ⟨?_, e, ?_, he⟩ <;>
          simp [STMDownloader.loop, STMDownloader.attempt, hf, ha, STMDownloader.errResult]
      · have hunf : ((self.loop link fp fetches (a :: rest)).1) =
            ((self.loop link fp fetches rest).1) := by
          simp [STMDownloader.loop, STMDownloader.attempt, hf, ha]
        rw [hunf]
        exact ih
    | ok resp2 =>
      by_cases hh : strContains (lowerStr resp2.content_type) "html" && resp2.contentLen < 1000
      · by_cases ha : max_retries ≤ a
        · right
          refine ⟨?_, htmlErrMsg, ?_, by decide⟩ <;>
            simp [STMDownloader.loop, STMDownloader.attempt, hf, hh, ha,
              STMDownloader.errResult]
        · have hunf : ((self.loop link fp fetches (a :: rest)).1) =
              ((self.loop link fp fetches rest).1) := by
            simp [STMDownloader.loop, STMDownloader.attempt, hf, hh, ha]
          rw [hunf]
          exact ih
      · by_cases hn : resp2.contentLen < 100
        · by_cases ha : max_retries ≤ a
          · right
            refine ⟨?_, tooSmallMsgStm resp2.contentLen, ?_,
              tooSmallMsgStm_ne_empty resp2.contentLen⟩ <;>
              simp [STMDownloader.loop, STMDownloader.attempt, hf, hh, hn, ha,
                STMDownloader.errResult]
          · have hunf : ((self.loop link fp fetches (a :: rest)).1) =
                ((self.loop link fp fetches rest).1) := by
              simp [STMDownloader.loop, STMDownloader.attempt, hf, hh, hn, ha]
            rw [hunf]
            exact ih
        · left
          constructor <;>
            simp [STMDownloader.loop, STMDownloader.attempt, hf, hh, hn,
              STMDownloader.okResult]

/-- Result classification for STM download_file. -/
theorem stm_result_class (self : STMDownloader) (fs : FS) (link : DownloadLink)
    (fetches : Nat → Except String StmResponse) (hne : ∀ i, fetches i ≠ Except.error "") :
    (((self.download_file fs link fetches).1).success = true ∧
      ((self.download_file fs link fetches).1).error = none) ∨
    (((self.download_file fs link fetches).1).success = false ∧
      ∃ s, ((self.download_file fs link fetches).1).error = some s ∧ s ≠ "") := by
  by_cases hc : self.hasHistory && self.hist.existsRecord link.filename DownloadType.STM fs
  · have hd : self.download_file fs link fetches =
        (self.skipResult link (joinPath self.download_dir link.filename), 0, []) := by
      unfold STMDownloader.download_file
      simp [hc]
    right
    rw [hd]
    exact ⟨rfl, "skipped", rfl, by decide⟩
  · cases hp : link.metadata.download_params with
    | none =>
      have hd : self.download_file fs link fetches =
          (self.noParamsResult link (joinPath self.download_dir link.filename), 0, []) := by
        unfold STMDownloader.download_file
        simp [hc, hp]
      right
      rw [hd]
      exact ⟨rfl, "No download parameters", rfl, by decide⟩
    | some p =>
      have hd : self.download_file fs link fetches =
          self.loop link (joinPath self.download_dir link.filename) fetches
            (List.range (max_retries + 1)) := by
        unfold STMDownloader.download_file
        simp [hc, hp]
      rw [hd]
      exact stm_loop_class self link _ fetches hne _

/-- The three run counters partition any result list whose failures carry
nonempty error strings. -/
theorem counts_partition (rs : List DownloadResult)
    (h : ∀ r ∈ rs, (r.success = true ∧ r.error = none) ∨
      (r.success = false ∧ ∃ s, r.error = some s ∧ s ≠ "")) :
    countDownloaded rs + countSkipped rs + countErrors rs = rs.length := by
  induction rs with
  | nil => rfl
  | cons r rest ih =>
    have hr := h r (List.mem_cons_self r rest)
    have hrest := ih (fun x hx => h x (List.mem_cons_of_mem r hx))
    unfold countDownloaded countSkipped countErrors at hrest ⊢
    rcases hr with ⟨h1, h2⟩ | ⟨h1, s, h2, h3⟩
    · rw [List.countP_cons, List.countP_cons, List.countP_cons, List.length_cons,
        if_pos h1, if_neg (by rw [h2]; decide), if_neg (by rw [h2]; decide)]
      omega
    · by_cases hs : s = "skipped"
      · subst hs
        rw [List.countP_cons, List.countP_cons, List.countP_cons, List.length_cons,
          if_neg (by rw [h1]; decide), if_pos (by rw [h2]; decide),
          if_neg (by rw [h2]; decide)]
        omega
      · rw [List.countP_cons, List.countP_cons, List.countP_cons, List.length_cons,
          if_neg (by rw [h1]; decide), if_neg (by rw [h2]; simp [hs]),
          if_pos (by rw [h2]; simp [errTruthy, h3, hs])]
        omega

/-- Classification of every result produced by a REP download_all. -/
theorem rep_all_class (self : REPDownloader)
    (oracle : DownloadLink → Nat → Except String Nat)
    (hne : ∀ l i, oracle l i ≠ Except.error "") :
    ∀ (links : List DownloadLink) (fs : FS), ∀ r ∈ (self.download_all oracle links fs).1,
      (r.success = true ∧ r.error = none) ∨
      (r.success = false ∧ ∃ s, r.error = some s ∧ s ≠ "") := by
  intro links
  induction links with
  | nil =>
    intro fs r hr
    simp [REPDownloader.download_all] at hr
  | cons link rest ih =>
    intro fs r hr
    simp only [REPDownloader.download_all] at hr
    rcases List.mem_cons.mp hr with hcase | hcase
    · rw [hcase]
      exact rep_result_class self fs link (oracle link) (hne link)
    · exact ih _ r hcase

/-- Classification of every result produced by an STM download_all. -/
theorem stm_all_class (self : STMDownloader)
    (oracle : DownloadLink → Nat → Except String StmResponse)
    (hne : ∀ l i, oracle l i ≠ Except.error "") :
    ∀ (links : List DownloadLink) (fs : FS), ∀ r ∈ (self.download_all oracle links fs).1,
      (r.success = true ∧ r.error = none) ∨
      (r.success = false ∧ ∃ s, r.error = some s ∧ s ≠ "") := by
  intro links
  induction links with
  | nil =>
    intro fs r hr
    simp [STMDownloader.download_all] at hr
  | cons link rest ih =>
    intro fs r hr
    simp only [STMDownloader.download_all] at hr
    rcases List.mem_cons.mp hr with hcase | hcase
    · rw [hcase]
      exact stm_result_class self fs link (oracle link) (hne link)
    · exact ih _ r hcase

/-- download_all returns one result per link (REP). -/
theorem rep_all_length (self : REPDownloader)
    (oracle : DownloadLink → Nat → Except String Nat) :
    ∀ (links : List DownloadLink) (fs : FS),
      ((self.download_all oracle links fs).1).length = links.length := by
  intro links
  induction links with
  | nil => intro fs; rfl
  | cons link rest ih =>
    intro fs
    simp [REPDownloader.download_all, ih]

/-- download_all returns one result per link (STM). -/
theorem stm_all_length (self : STMDownloader)
    (oracle : DownloadLink → Nat → Except String StmResponse) :
    ∀ (links : List DownloadLink) (fs : FS),
      ((self.download_all oracle links fs).1).length = links.length := by
  intro links
  induction links with
  | nil => intro fs; rfl
  | cons link rest ih =>
    intro fs
    simp [STMDownloader.download_all, ih]

/-- Claim C9 counterexample: a failing transfer whose exception stringifies
to the empty string is counted in no bucket, because the error tally tests
Python truthiness of the error string; the summary is then 0 + 0 + 0 for a
total of 1, refuting downloaded + skipped + errors = total. -/
theorem C9_empty_error_counterexample :
    repNoHist.run (LoginResponse.ok "https://eclaim.nhso.go.th/portal" "welcome")
      [sampleLink] (fun _ _ => Except.error "") [] = RunSummary.finished 0 0 0 1 ∧
    (0 : Nat) + 0 + 0 ≠ 1 := by
  exact ⟨by decide, by decide⟩

/-- Claim C9 (amended): on login failure run returns the failure dict
regardless of discovery or transfer inputs; on login success run returns
success with the three counters and total equal to the number of links
processed, and downloaded + skipped + errors = total holds whenever no fetch
attempt raises an exception with an empty string form (an empty-string
exception is tallied in no bucket).  Both variants. -/
theorem C9_run_summary_amended (selfR : REPDownloader) (selfS : STMDownloader)
    (resp : LoginResponse) (linksR linksS : List DownloadLink)
    (oracleR : DownloadLink → Nat → Except String Nat)
    (oracleS : DownloadLink → Nat → Except String StmResponse) (fsR fsS : FS)
    (hneR : ∀ l i, oracleR l i ≠ Except.error "")
    (hneS : ∀ l i, oracleS l i ≠ Except.error "") :
    (REPDownloader.login resp = false →
      selfR.run resp linksR oracleR fsR = RunSummary.failed "Login failed" ∧
      selfS.run resp linksS oracleS fsS = RunSummary.failed "Login failed") ∧
    (REPDownloader.login resp = true →
      selfR.run resp linksR oracleR fsR =
        RunSummary.finished (countDownloaded ((selfR.download_all oracleR linksR fsR).1))
          (countSkipped ((selfR.download_all oracleR linksR fsR).1))
          (countErrors ((selfR.download_all oracleR linksR fsR).1))
          ((selfR.download_all oracleR linksR fsR).1).length ∧
      ((selfR.download_all oracleR linksR fsR).1).length = linksR.length ∧
      countDownloaded ((selfR.download_all oracleR linksR fsR).1) +
        countSkipped ((selfR.download_all oracleR linksR fsR).1) +
        countErrors ((selfR.download_all oracleR linksR fsR).1) =
        ((selfR.download_all oracleR linksR fsR).1).length ∧
      selfS.run resp linksS oracleS fsS =
        RunSummary.finished (countDownloaded ((selfS.download_all oracleS linksS fsS).1))
          (countSkipped ((selfS.download_all oracleS linksS fsS).1))
          (countErrors ((selfS.download_all oracleS linksS fsS).1))
          ((selfS.download_all oracleS linksS fsS).1).length ∧
      ((selfS.download_all oracleS linksS fsS).1).length = linksS.length ∧
      countDownloaded ((selfS.download_all oracleS linksS fsS).1) +
        countSkipped ((selfS.download_all oracleS linksS fsS).1) +
        countErrors ((selfS.download_all oracleS linksS fsS).1) =
        ((selfS.download_all oracleS linksS fsS).1).length) := by
  constructor
  · intro h
    have h2 : STMDownloader.login resp = false := h
    constructor
    · unfold REPDownloader.run
      rw [if_pos h]
    · unfold STMDownloader.run
      rw [if_pos h2]
  · intro h
    have hRrun : selfR.run resp linksR oracleR fsR =
        RunSummary.finished (countDownloaded ((selfR.download_all oracleR linksR fsR).1))
          (countSkipped ((selfR.download_all oracleR linksR fsR).1))
          (countErrors ((selfR.download_all oracleR linksR fsR).1))
          ((selfR.download_all oracleR linksR fsR).1).length := by
      unfold REPDownloader.run
      rw [if_neg (by simp [h])]
      cases linksR with
      | nil => rfl
      | cons a rest => rfl
    have h2 : STMDownloader.login resp = true := h
    have hSrun : selfS.run resp linksS oracleS fsS =
        RunSummary.finished (countDownloaded ((selfS.download_all oracleS linksS fsS).1))
          (countSkipped ((selfS.download_all oracleS linksS fsS).1))
          (countErrors ((selfS.download_all oracleS linksS fsS).1))
          ((selfS.download_all oracleS linksS fsS).1).length := by
      unfold STMDownloader.run
      rw [if_neg (by simp [h2])]
      cases linksS with
      | nil => rfl
      | cons a rest => rfl
    exact ⟨hRrun, rep_all_length selfR oracleR linksR fsR,
      counts_partition _ (rep_all_class selfR oracleR hneR linksR fsR),
      hSrun, stm_all_length selfS oracleS linksS fsS,
      counts_partition _ (stm_all_class selfS oracleS hneS linksS fsS)⟩

/-- Claim C9 witness: the 3-link scenario with one history hit yields the
summary with downloaded 2, skipped 1, errors 0, total 3, and the partition
equality instantiated by the amended theorem. -/
theorem C9_run_summary_amended_witness :
    repWithHist.run (LoginResponse.ok "https://eclaim.nhso.go.th/portal" "welcome")
      scenLinks scenOracle scenFS = RunSummary.finished 2 1 0 3 ∧
    countDownloaded ((repWithHist.download_all scenOracle scenLinks scenFS).1) +
      countSkipped ((repWithHist.download_all scenOracle scenLinks scenFS).1) +
      countErrors ((repWithHist.download_all scenOracle scenLinks scenFS).1) =
      ((repWithHist.download_all scenOracle scenLinks scenFS).1).length := by
  have h := C9_run_summary_amended repWithHist stmWithHist
    (LoginResponse.ok "https://eclaim.nhso.go.th/portal" "welcome") scenLinks []
    scenOracle (fun _ _ => Except.error "x") scenFS []
    (fun _ _ => by simp [scenOracle]) (fun _ _ => by simp)
  exact ⟨by decide, (h.2 (by decide)).2.2.1⟩

end Eclaim
